import Mathlib

/-!
# CAD Locker: shallow embedding and verification

This file embeds the core of the `cad_locker` repository (a self-extracting
"protected executable" container for CAD drawings) in Lean 4 and proves the
testable properties stated in its specification.

Sources embedded:
* `src/cad_locker.h` — constants, `CADLockerFooter` layout, `xor_crypt`;
* `src/stub.c` — `read_footer`, `extract_payload`, `get_launch_count`,
  `increment_launch_count`, `EnumWindowsProc`, and the control flow of
  `wWinMain` (limit check, self-delete, increment, extraction, viewer spawn);
* `src/builder.c` / `src/builder_gui.c` — `read_file` / `read_file_binary`
  and `build_protected_exe` (byte assembly and the output-file write path).

Byte strings are modelled as `List Nat` (each element a byte value); machine
integers are modelled as `Nat`/`Int` with explicit `% 2^32` / `% 2^64`
truncation where the C code's fixed-width types matter.
-/

namespace CadLocker

/-! ## Constants from `src/cad_locker.h` -/

/-- `XOR_KEY "MySecretCADKey2024!@#$"` (22 bytes), from `cad_locker.h`. -/
def XOR_KEY : List Nat :=
  [77, 121, 83, 101, 99, 114, 101, 116, 67, 65, 68, 75,
   101, 121, 50, 48, 50, 52, 33, 64, 35, 36]

/-- `XOR_KEY_LEN 22`. -/
def XOR_KEY_LEN : Nat := 22

/-- `MAGIC_MARKER "CADLOCK\0"` (8 bytes). -/
def MAGIC_MARKER : List Nat := [67, 65, 68, 76, 79, 67, 75, 0]

/-- `MAGIC_MARKER_LEN 8`. -/
def MAGIC_MARKER_LEN : Nat := 8

/-- `FOOTER_SIZE 40`. -/
def FOOTER_SIZE : Nat := 40

/-- `FLAG_MELTDOWN 0x01`. -/
def FLAG_MELTDOWN : Nat := 1

/-- `FLAG_SHOW_COUNTDOWN 0x02`. -/
def FLAG_SHOW_COUNTDOWN : Nat := 2

/-- `FLAG_SELF_DESTRUCT 0x04`. -/
def FLAG_SELF_DESTRUCT : Nat := 4

/-! ## Codec: `xor_crypt` from `src/cad_locker.h`

`xor_crypt(data, len)` does `data[i] ^= key[i % XOR_KEY_LEN]` for every `i`.
We model the in-place update as a function from the byte list to the
transformed byte list, tracking the running index `i`. -/

/-- `key[i % XOR_KEY_LEN]` of `xor_crypt`. -/
def keyByte (i : Nat) : Nat := XOR_KEY.getD (i % XOR_KEY_LEN) 0

/-- The tail of `xor_crypt`'s loop starting at index `i`. -/
def xorFrom (i : Nat) : List Nat → List Nat
  | [] => []
  | b :: rest => (b ^^^ keyByte i) :: xorFrom (i + 1) rest

/-- `xor_crypt` from `cad_locker.h`: XOR every byte with the repeating key. -/
def xor_crypt (data : List Nat) : List Nat := xorFrom 0 data

theorem xorFrom_xorFrom (i : Nat) (l : List Nat) :
    xorFrom i (xorFrom i l) = l := by
  induction l generalizing i with
  | nil => rfl
  | cons b rest ih =>
      simp only [xorFrom, ih, List.cons.injEq, and_true]
      rw [Nat.xor_assoc, Nat.xor_self, Nat.xor_zero]

theorem length_xorFrom (i : Nat) (l : List Nat) :
    (xorFrom i l).length = l.length := by
  induction l generalizing i with
  | nil => rfl
  | cons b rest ih => simp [xorFrom, ih]

theorem length_xor_crypt (l : List Nat) : (xor_crypt l).length = l.length :=
  length_xorFrom 0 l

/-- **C3.** For every byte string `P`, applying the repeating-key XOR
transform `xor_crypt` twice (with the fixed key baked into the code)
returns `P` unchanged: the codec is self-inverse. -/
theorem xor_crypt_self_inverse (P : List Nat) :
    xor_crypt (xor_crypt P) = P :=
  xorFrom_xorFrom 0 P

/-! ## Footer structure and its byte layout

`CADLockerFooter` is `#pragma pack(push,1)`: `payload_size` (u64 LE),
`max_launches` (u32 LE), `file_id` (16 raw bytes), `security_flags`
(u32 LE), `magic` (8 raw bytes) — 40 bytes total. -/

/-- `CADLockerFooter` from `cad_locker.h`. Integer fields hold the values of
the fixed-width C fields (`payload_size < 2^64`, `max_launches`,
`security_flags < 2^32` for any footer read from bytes). -/
structure CADLockerFooter where
  payload_size : Nat
  max_launches : Nat
  file_id : List Nat
  security_flags : Nat
  magic : List Nat
deriving DecidableEq, Repr

/-- Little-endian encoding of `n` into `w` bytes (truncating, as storing
into a `w`-byte C integer field does). -/
def natToLE (w n : Nat) : List Nat :=
  match w with
  | 0 => []
  | w + 1 => (n % 256) :: natToLE w (n / 256)

/-- Little-endian decoding of a byte list into a `Nat`. -/
def leToNat : List Nat → Nat
  | [] => 0
  | b :: rest => b + 256 * leToNat rest

theorem length_natToLE (w n : Nat) : (natToLE w n).length = w := by
  induction w generalizing n with
  | zero => rfl
  | succ w ih => simp [natToLE, ih]

theorem leToNat_natToLE (w n : Nat) : leToNat (natToLE w n) = n % 256 ^ w := by
  induction w generalizing n with
  | zero => simp [natToLE, leToNat, Nat.mod_one]
  | succ w ih =>
      simp only [natToLE, leToNat, ih, pow_succ]
      rw [mul_comm (256 ^ w) 256, Nat.mod_mul]

/-- Serialize a footer to its 40-byte packed layout (the byte image that
`fwrite(&footer, sizeof(footer), 1, out)` emits). -/
def encodeFooter (ft : CADLockerFooter) : List Nat :=
  natToLE 8 ft.payload_size ++ natToLE 4 ft.max_launches ++ ft.file_id ++
    natToLE 4 ft.security_flags ++ ft.magic

/-- Parse a 40-byte packed footer image (the byte image that
`fread(footer, sizeof(CADLockerFooter), 1, exe)` fills the struct from). -/
def decodeFooter (f : List Nat) : CADLockerFooter :=
  { payload_size := leToNat (f.take 8)
    max_launches := leToNat ((f.drop 8).take 4)
    file_id := (f.drop 12).take 16
    security_flags := leToNat ((f.drop 28).take 4)
    magic := (f.drop 32).take 8 }

/-! ## Container reader: `read_footer` and `extract_payload` from `src/stub.c` -/

/-- `read_footer` from `stub.c`: seek to `EOF - FOOTER_SIZE` (fails when the
file is shorter than `FOOTER_SIZE`), read the 40-byte footer, and validate
the magic marker byte-for-byte (`memcmp(footer->magic, MAGIC_MARKER, 8)`).
`none` models returning `FALSE`. -/
def read_footer (file : List Nat) : Option CADLockerFooter :=
  if file.length < FOOTER_SIZE then none
  else
    let ft := decodeFooter (file.drop (file.length - FOOTER_SIZE))
    if ft.magic = MAGIC_MARKER then some ft else none

/-- `extract_payload` from `stub.c`: seek to
`EOF - (payload_size + FOOTER_SIZE)` (fails when the file is too short),
read `payload_size` encrypted bytes, decrypt with `xor_crypt`, and write
them to a fresh temp file. The returned bytes are the decrypted temp-file
contents; `none` models the failure paths. -/
def extract_payload (file : List Nat) (ft : CADLockerFooter) : Option (List Nat) :=
  if file.length < ft.payload_size + FOOTER_SIZE then none
  else
    some (xor_crypt ((file.drop (file.length - (ft.payload_size + FOOTER_SIZE))).take
      ft.payload_size))

/-- The reader's `open`: validate the footer, then extract and decrypt the
payload (the `read_footer` + `extract_payload` sequence of `wWinMain`). -/
def reader_open (file : List Nat) : Option (CADLockerFooter × List Nat) := do
  let ft ← read_footer file
  let p ← extract_payload file ft
  some (ft, p)

/-! ## Container builder: `build_protected_exe`

`build_protected_exe` in `src/builder_gui.c` (lines 273–397) takes the
stub bytes and CAD bytes (already read), encrypts the CAD bytes with
`xor_crypt`, fills the footer (`payload_size = (uint64_t)dwg_size`,
`max_launches = (uint32_t)max_launches`, `security_flags = flags`, a fresh
16-byte `file_id`, `magic = MAGIC_MARKER`), and writes
`stub ++ encrypted ++ footer`. The `file_id` GUID generation is an
environment input here. -/
def build_protected_exe (stub dwg : List Nat) (max_launches flags : Nat)
    (file_id : List Nat) : List Nat :=
  stub ++ xor_crypt dwg ++
    encodeFooter
      { payload_size := dwg.length % 2 ^ 64
        max_launches := max_launches % 2 ^ 32
        file_id := file_id
        security_flags := flags % 2 ^ 32
        magic := MAGIC_MARKER }

theorem length_encodeFooter (ft : CADLockerFooter) (hf : ft.file_id.length = 16)
    (hm : ft.magic.length = 8) : (encodeFooter ft).length = 40 := by
  simp [encodeFooter, length_natToLE, hf, hm]

theorem take_of_length_eq {α : Type} (l : List α) (n : Nat) (h : l.length = n) :
    l.take n = l := by
  rw [← h, List.take_length]

theorem pow256_8 : (256 : Nat) ^ 8 = 2 ^ 64 := by norm_num

theorem pow256_4 : (256 : Nat) ^ 4 = 2 ^ 32 := by norm_num

theorem decodeFooter_encodeFooter (ft : CADLockerFooter)
    (hf : ft.file_id.length = 16) (hm : ft.magic.length = 8)
    (hp : ft.payload_size < 2 ^ 64) (hml : ft.max_launches < 2 ^ 32)
    (hsf : ft.security_flags < 2 ^ 32) :
    decodeFooter (encodeFooter ft) = ft := by
  obtain ⟨ps, ml, fid, sf, mg⟩ := ft
  simp only at hf hm hp hml hsf
  have hA : (natToLE 8 ps).length = 8 := length_natToLE _ _
  have hB : (natToLE 4 ml).length = 4 := length_natToLE _ _
  have hD : (natToLE 4 sf).length = 4 := length_natToLE _ _
  have h8 : (encodeFooter ⟨ps, ml, fid, sf, mg⟩).take 8 = natToLE 8 ps := by
    simp only [encodeFooter, List.append_assoc]
    rw [List.take_left' hA]
  have hd8 : (encodeFooter ⟨ps, ml, fid, sf, mg⟩).drop 8
      = natToLE 4 ml ++ (fid ++ (natToLE 4 sf ++ mg)) := by
    simp only [encodeFooter, List.append_assoc]
    rw [List.drop_left' hA]
  have hd12 : (encodeFooter ⟨ps, ml, fid, sf, mg⟩).drop 12
      = fid ++ (natToLE 4 sf ++ mg) := by
    have e1 : encodeFooter ⟨ps, ml, fid, sf, mg⟩
        = (natToLE 8 ps ++ natToLE 4 ml) ++ (fid ++ (natToLE 4 sf ++ mg)) := by
      simp [encodeFooter, List.append_assoc]
    rw [e1, List.drop_left' (by simp [hA, hB])]
  have hd28 : (encodeFooter ⟨ps, ml, fid, sf, mg⟩).drop 28
      = natToLE 4 sf ++ mg := by
    have e2 : encodeFooter ⟨ps, ml, fid, sf, mg⟩
        = ((natToLE 8 ps ++ natToLE 4 ml) ++ fid) ++ (natToLE 4 sf ++ mg) := by
      simp [encodeFooter, List.append_assoc]
    rw [e2, List.drop_left' (by simp [hA, hB, hf])]
  have hd32 : (encodeFooter ⟨ps, ml, fid, sf, mg⟩).drop 32 = mg := by
    have e3 : encodeFooter ⟨ps, ml, fid, sf, mg⟩
        = (((natToLE 8 ps ++ natToLE 4 ml) ++ fid) ++ natToLE 4 sf) ++ mg := by
      simp [encodeFooter, List.append_assoc]
    rw [e3, List.drop_left' (by simp [hA, hB, hD, hf])]
  unfold decodeFooter
  rw [h8, hd8, hd12, hd28, hd32, List.take_left' hB, List.take_left' hf,
    List.take_left' hD, take_of_length_eq mg 8 hm,
    leToNat_natToLE, leToNat_natToLE, leToNat_natToLE, pow256_8, pow256_4,
    Nat.mod_eq_of_lt hp, Nat.mod_eq_of_lt hml, Nat.mod_eq_of_lt hsf]

/-- **C1.** For every stub byte string `S`, payload `P`, launch limit `L`
and flag set `F` (and any 16-byte build id), opening the container produced
by the builder succeeds and yields a footer whose `payload_size` equals
`len(P)`, whose `max_launches` equals `L`, whose `security_flags` equals
`F`, and a decrypted payload byte-for-byte equal to `P`. `L` and `F` are
bounded by the `u32` footer fields; the payload is bounded by the 32-bit
`long` file arithmetic (`read_file` obtains sizes via `long ftell`, and
`extract_payload` computes a `long` seek offset of
`-(payload_size + FOOTER_SIZE)`), within which the embedding is exact. -/
theorem container_build_open_roundtrip
    (S P : List Nat) (L F : Nat) (fid : List Nat)
    (hfid : fid.length = 16) (hP : P.length + FOOTER_SIZE < 2 ^ 31)
    (hL : L < 2 ^ 32) (hF : F < 2 ^ 32) :
    reader_open (build_protected_exe S P L F fid) =
      some ({ payload_size := P.length, max_launches := L, file_id := fid,
              security_flags := F, magic := MAGIC_MARKER }, P) := by
  have hP64 : P.length < 2 ^ 64 := by
    have h40 := hP
    simp only [FOOTER_SIZE] at h40
    omega
  set ft0 : CADLockerFooter :=
    { payload_size := P.length, max_launches := L, file_id := fid,
      security_flags := F, magic := MAGIC_MARKER } with hft0
  have hb : build_protected_exe S P L F fid
      = S ++ xor_crypt P ++ encodeFooter ft0 := by
    unfold build_protected_exe
    rw [Nat.mod_eq_of_lt hP64, Nat.mod_eq_of_lt hL, Nat.mod_eq_of_lt hF]
  have hFT : (encodeFooter ft0).length = 40 := length_encodeFooter ft0 hfid rfl
  have hC : (xor_crypt P).length = P.length := length_xor_crypt P
  have hlen : (S ++ xor_crypt P ++ encodeFooter ft0).length
      = S.length + P.length + 40 := by
    simp [hC, hFT, Nat.add_assoc]
  have hrf : read_footer (S ++ xor_crypt P ++ encodeFooter ft0) = some ft0 := by
    unfold read_footer
    rw [hlen]
    have hnot : ¬ (S.length + P.length + 40 < FOOTER_SIZE) := by
      simp only [FOOTER_SIZE]
      omega
    rw [if_neg hnot]
    have hpre : (S ++ xor_crypt P).length = S.length + P.length + 40 - FOOTER_SIZE := by
      simp only [List.length_append, hC, FOOTER_SIZE]
      omega
    have hdrop : (S ++ xor_crypt P ++ encodeFooter ft0).drop
        (S.length + P.length + 40 - FOOTER_SIZE) = encodeFooter ft0 :=
      List.drop_left' hpre
    rw [hdrop, decodeFooter_encodeFooter ft0 hfid rfl hP64 hL hF]
    simp [hft0]
  have hep : extract_payload (S ++ xor_crypt P ++ encodeFooter ft0) ft0
      = some P := by
    unfold extract_payload
    rw [hlen]
    have hps : ft0.payload_size = P.length := rfl
    rw [hps]
    have hnot : ¬ (S.length + P.length + 40 < P.length + FOOTER_SIZE) := by
      simp only [FOOTER_SIZE]
      omega
    rw [if_neg hnot]
    have hpre : S.length = S.length + P.length + 40 - (P.length + FOOTER_SIZE) := by
      simp only [FOOTER_SIZE]
      omega
    have hdrop : (S ++ xor_crypt P ++ encodeFooter ft0).drop
        (S.length + P.length + 40 - (P.length + FOOTER_SIZE))
        = xor_crypt P ++ encodeFooter ft0 := by
      rw [List.append_assoc]
      exact List.drop_left' hpre
    rw [hdrop, List.take_left' hC]
    simp [xor_crypt, xorFrom_xorFrom]
  rw [hb]
  unfold reader_open
  rw [hrf]
  show (extract_payload (S ++ xor_crypt P ++ encodeFooter ft0) ft0).bind
      (fun p => some (ft0, p)) = some (ft0, P)
  rw [hep]
  rfl

/-- Witness for C1: a concrete build/open round trip (stub `[0,1]`,
payload `[10,20,30]`, limit `2`, flags `5`, a constant build id). -/
theorem container_build_open_roundtrip_witness :
    reader_open (build_protected_exe [0, 1] [10, 20, 30] 2 5
        (List.replicate 16 7)) =
      some ({ payload_size := 3, max_launches := 2,
              file_id := List.replicate 16 7, security_flags := 5,
              magic := MAGIC_MARKER }, [10, 20, 30]) :=
  container_build_open_roundtrip [0, 1] [10, 20, 30] 2 5 (List.replicate 16 7)
    (by decide) (by decide) (by decide) (by decide)

/-! ## Corruption rejection (C4) -/

theorem drop_set_add {α : Type} (l : List α) (n i : Nat) (b : α) :
    (l.set (n + i) b).drop n = (l.drop n).set i b := by
  induction n generalizing l with
  | zero => simp
  | succ n ih =>
      cases l with
      | nil => simp
      | cons h t =>
          simp only [Nat.succ_add, List.set_cons_succ, List.drop_succ_cons]
          exact ih t

theorem getD_drop {α : Type} (l : List α) (n i : Nat) (d : α) :
    (l.drop n).getD i d = l.getD (n + i) d := by
  induction n generalizing l with
  | zero => simp
  | succ n ih =>
      cases l with
      | nil => simp
      | cons h t =>
          simp only [List.drop_succ_cons]
          rw [ih t]
          have he : n + 1 + i = (n + i) + 1 := by omega
          rw [he, List.getD_cons_succ]

theorem getD_set_self {α : Type} (l : List α) (i : Nat) (b d : α)
    (h : i < l.length) : (l.set i b).getD i d = b := by
  rw [List.getD_eq_getElem?_getD, List.getElem?_set_self (by simpa using h)]
  simp

/-- A successful `read_footer` means the file is at least 40 bytes long and
its final 8 bytes are exactly the magic marker. -/
theorem read_footer_magic_slice (file : List Nat) (ft : CADLockerFooter)
    (h : read_footer file = some ft) :
    40 ≤ file.length ∧ file.drop (file.length - 8) = MAGIC_MARKER := by
  simp only [read_footer] at h
  split at h
  · exact absurd h (by simp)
  · rename_i hlt
    have hlen : 40 ≤ file.length := by
      simp only [FOOTER_SIZE] at hlt
      omega
    refine ⟨hlen, ?_⟩
    split at h
    · rename_i hmagic
      simp only [decodeFooter] at hmagic
      rw [List.drop_drop] at hmagic
      have he : file.length - FOOTER_SIZE + 32 = file.length - 8 := by
        simp only [FOOTER_SIZE]
        omega
      rw [he] at hmagic
      rw [← hmagic, take_of_length_eq]
      rw [List.length_drop]
      omega
    · exact absurd h (by simp)

/-- A file of length at least 40 whose final 8 bytes differ from the magic
marker is rejected by `read_footer`. -/
theorem read_footer_of_bad_magic (g : List Nat) (h40 : 40 ≤ g.length)
    (hbad : g.drop (g.length - 8) ≠ MAGIC_MARKER) : read_footer g = none := by
  simp only [read_footer]
  rw [if_neg (by simp only [FOOTER_SIZE]; omega)]
  have hmagic : (decodeFooter (g.drop (g.length - FOOTER_SIZE))).magic
      = g.drop (g.length - 8) := by
    simp only [decodeFooter]
    rw [List.drop_drop]
    have he : g.length - FOOTER_SIZE + 32 = g.length - 8 := by
      simp only [FOOTER_SIZE]
      omega
    rw [he, take_of_length_eq]
    rw [List.length_drop]
    omega
  simp only [hmagic]
  rw [if_neg hbad]

theorem reader_open_eq_none (g : List Nat) (h : read_footer g = none) :
    reader_open g = none := by
  simp [reader_open, h]

/-- **C4.** For every container (any file whose footer parses) and every
byte position inside the magic field (the last 8 bytes of the file),
flipping that byte to a different value causes the reader's `open` to fail
as an invalid container; a file shorter than `FOOTER_SIZE` bytes likewise
fails. (`read_footer` compares the magic byte-for-byte with
`memcmp(footer->magic, MAGIC_MARKER, 8)`.) -/
theorem magic_flip_and_truncation_rejected :
    (∀ (file : List Nat) (ft : CADLockerFooter), read_footer file = some ft →
      ∀ i, i < MAGIC_MARKER_LEN → ∀ b, b ≠ file.getD (file.length - 8 + i) 0 →
        reader_open (file.set (file.length - 8 + i) b) = none)
  ∧ (∀ file : List Nat, file.length < FOOTER_SIZE → reader_open file = none) := by
  constructor
  · intro file ft h i hi b hb
    obtain ⟨hlen40, hslice⟩ := read_footer_magic_slice file ft h
    have hi8 : i < 8 := by simpa [MAGIC_MARKER_LEN] using hi
    apply reader_open_eq_none
    apply read_footer_of_bad_magic
    · rw [List.length_set]
      exact hlen40
    · rw [List.length_set, drop_set_add file (file.length - 8) i b, hslice]
      intro heq
      have h1 : (MAGIC_MARKER.set i b).getD i 0 = b :=
        getD_set_self _ _ _ _ (by simpa [MAGIC_MARKER] using hi8)
      rw [heq] at h1
      refine hb ?_
      rw [← h1, ← hslice]
      exact getD_drop file (file.length - 8) i 0
  · intro file hshort
    apply reader_open_eq_none
    simp only [read_footer]
    rw [if_pos hshort]

/-- Witness for C4: a concrete 40-byte container (32 zero bytes followed by
the magic marker) parses; corrupting magic byte 0 to `99` makes `open`
fail, and the 3-byte file `[1,2,3]` fails as truncated. -/
theorem magic_flip_and_truncation_rejected_witness :
    reader_open ((List.replicate 32 0 ++ MAGIC_MARKER).set
        ((List.replicate 32 0 ++ MAGIC_MARKER).length - 8 + 0) 99) = none ∧
    reader_open [1, 2, 3] = none :=
  ⟨magic_flip_and_truncation_rejected.1 (List.replicate 32 0 ++ MAGIC_MARKER)
      { payload_size := 0, max_launches := 0, file_id := List.replicate 16 0,
        security_flags := 0, magic := MAGIC_MARKER }
      (by decide) 0 (by decide) 99 (by decide),
   magic_flip_and_truncation_rejected.2 [1, 2, 3] (by decide)⟩

/-! ## Launch ledger: the registry counter from `src/stub.c`

`get_launch_count` / `increment_launch_count` read and write a `DWORD`
value under `HKEY_CURRENT_USER\Software\MyCADLock`, keyed by the hex string
of the footer's 16-byte `file_id` (we key directly by the id bytes). The
stored value is a 32-bit `DWORD`; both functions return it through an
`(int)` cast. -/

/-- Two's-complement reinterpretation of a stored 32-bit value as a C `int`
(the `(int)count` casts in `get_launch_count` / `increment_launch_count`,
and the `(int)footer.max_launches` cast in `wWinMain`). -/
def toInt32 (n : Nat) : Int :=
  if n % 2 ^ 32 < 2 ^ 31 then ((n % 2 ^ 32 : Nat) : Int)
  else ((n % 2 ^ 32 : Nat) : Int) - 2 ^ 32

/-- The per-user registry key: value name (build id) to stored `DWORD`. -/
abbrev Ledger : Type := List (List Nat × Nat)

def ledger_lookup (led : Ledger) (k : List Nat) : Option Nat :=
  match led with
  | [] => none
  | (k', v) :: rest => if k' = k then some v else ledger_lookup rest k

def ledger_set (led : Ledger) (k : List Nat) (v : Nat) : Ledger :=
  match led with
  | [] => [(k, v)]
  | (k', v') :: rest =>
      if k' = k then (k, v) :: rest else (k', v') :: ledger_set rest k v

/-- `get_launch_count` from `stub.c`: a missing key (or failed registry
open/query) yields 0; otherwise the stored `DWORD` is returned as `int`. -/
def get_launch_count (led : Ledger) (k : List Nat) : Int :=
  match ledger_lookup led k with
  | none => 0
  | some c => toInt32 c

/-- `increment_launch_count` from `stub.c` (registry operations assumed to
succeed): read the current `DWORD` (absent reads as 0), increment it as a
`DWORD` (wrapping at `2^32`), store it, and return it as `int`. -/
def increment_launch_count (led : Ledger) (k : List Nat) : Ledger × Int :=
  let cur := (ledger_lookup led k).getD 0
  let newc := (cur + 1) % 2 ^ 32
  (ledger_set led k newc, toInt32 newc)

theorem ledger_lookup_set (led : Ledger) (k : List Nat) (v : Nat) :
    ledger_lookup (ledger_set led k v) k = some v := by
  induction led with
  | nil => simp [ledger_set, ledger_lookup]
  | cons p rest ih =>
      obtain ⟨k', v'⟩ := p
      by_cases hk : k' = k
      · simp [ledger_set, hk, ledger_lookup]
      · simp [ledger_set, hk, ledger_lookup, ih]

theorem toInt32_of_lt {n : Nat} (h : n < 2 ^ 31) : toInt32 n = n := by
  have h32 : n % 2 ^ 32 = n := Nat.mod_eq_of_lt (by omega)
  unfold toInt32
  rw [h32, if_pos h]

/-- **C5 (counterexample).** With the stored count at `2^31 - 1`, a
successful increment returns `-(2^31)` (the `DWORD` is bumped to `2^31` and
returned through the `(int)` cast), not "one more than the previously
stored count" (`2^31`). -/
theorem ledger_increment_overflow_counterexample :
    (increment_launch_count [(List.replicate 16 0, 2 ^ 31 - 1)]
        (List.replicate 16 0)).2 = -(2 ^ 31) ∧
    (increment_launch_count [(List.replicate 16 0, 2 ^ 31 - 1)]
        (List.replicate 16 0)).2 ≠ (2 ^ 31 - 1) + 1 := by
  constructor
  · decide
  · decide

/-- **C5 (amended).** `get` on an absent ledger key returns 0 and never
fails; and, provided the incremented count stays below `2^31` (no
`DWORD`/`int` overflow), each successful increment stores and returns
exactly one more than the previously stored count, strictly greater than
`get`'s prior value. -/
theorem ledger_get_absent_and_increment_succ :
    (∀ (led : Ledger) (k : List Nat), ledger_lookup led k = none →
      get_launch_count led k = 0)
  ∧ (∀ (led : Ledger) (k : List Nat) (c : Nat),
      (ledger_lookup led k).getD 0 = c → c + 1 < 2 ^ 31 →
      (increment_launch_count led k).2 = (c : Int) + 1 ∧
      ledger_lookup (increment_launch_count led k).1 k = some (c + 1) ∧
      get_launch_count led k < (increment_launch_count led k).2) := by
  constructor
  · intro led k h
    simp [get_launch_count, h]
  · intro led k c hc hbound
    have hmod : (c + 1) % 2 ^ 32 = c + 1 := Nat.mod_eq_of_lt (by omega)
    have hret : (increment_launch_count led k).2 = (c : Int) + 1 := by
      simp only [increment_launch_count, hc, hmod]
      rw [toInt32_of_lt hbound]
      push_cast
      ring
    refine ⟨hret, ?_, ?_⟩
    · simp only [increment_launch_count, hc, hmod]
      exact ledger_lookup_set led k (c + 1)
    · rw [hret]
      unfold get_launch_count
      cases hl : ledger_lookup led k with
      | none => positivity
      | some c' =>
          have hcc : c' = c := by
            rw [hl] at hc
            simpa using hc
          show toInt32 c' < (c : Int) + 1
          rw [hcc, toInt32_of_lt (by omega)]
          omega

/-- Witness for C5 (amended): on an empty ledger, `get` returns 0 and the
first increment stores and returns 1. -/
theorem ledger_get_increment_witness :
    get_launch_count [] (List.replicate 16 0) = 0 ∧
    ((increment_launch_count [] (List.replicate 16 0)).2 = (0 : Nat) + 1 ∧
     ledger_lookup (increment_launch_count [] (List.replicate 16 0)).1
        (List.replicate 16 0) = some (0 + 1) ∧
     get_launch_count [] (List.replicate 16 0) <
        (increment_launch_count [] (List.replicate 16 0)).2) :=
  ⟨ledger_get_absent_and_increment_succ.1 [] (List.replicate 16 0) (by decide),
   ledger_get_absent_and_increment_succ.2 [] (List.replicate 16 0) 0
     (by decide) (by decide)⟩

/-! ## `wWinMain` launch-control flow from `src/stub.c` -/

/-- Observable steps of one run of the stub's `wWinMain` after a footer has
been read successfully. -/
inductive StubEvent where
  | checkLimit
  | rejectLimit
  | selfDelete
  | increment
  | showRemaining
  | extract
  | spawn
  | cleanupTemp
deriving DecidableEq, Repr

/-- Environment of one stub run: the persistent ledger plus whether payload
extraction (`extract_payload`) and the viewer spawn (`ShellExecuteExW` in
`launch_and_wait`) succeed. -/
structure StubWorld where
  ledger : Ledger
  extract_ok : Bool
  spawn_ok : Bool

/-- The control flow of `wWinMain` (`stub.c`, after `read_footer`): read
the launch count; if `footer.max_launches > 0 && launch_count >=
(int)footer.max_launches`, show the limit error, call `self_delete()` and
exit. Otherwise call `increment_launch_count`, show the remaining-views
popup when `max_launches > 0`, attempt `extract_payload`, and on success
run `launch_and_wait` (viewer spawn) and `secure_delete_file` on the temp
file. Returns the event trace and the resulting ledger. -/
def stubRun (ft : CADLockerFooter) (w : StubWorld) : List StubEvent × Ledger :=
  let count := get_launch_count w.ledger ft.file_id
  if 0 < ft.max_launches ∧ toInt32 ft.max_launches ≤ count then
    ([StubEvent.checkLimit, StubEvent.rejectLimit, StubEvent.selfDelete],
      w.ledger)
  else
    let led2 := (increment_launch_count w.ledger ft.file_id).1
    let popup := if 0 < ft.max_launches then [StubEvent.showRemaining] else []
    let tail :=
      if w.extract_ok then
        [StubEvent.extract] ++
          (if w.spawn_ok then [StubEvent.spawn] else []) ++
          [StubEvent.cleanupTemp]
      else [StubEvent.extract]
    ([StubEvent.checkLimit, StubEvent.increment] ++ popup ++ tail, led2)

/-- **C2.** For every `N ≥ 1` (within the `u32` range of the footer field),
with the ledger recording `N` launches of a container whose footer has
`max_launches = N`, the next open attempt is rejected by the limit check —
no viewer spawn, and not even an increment, happens; a container with
`max_launches = 0` is never rejected by the limit check. -/
theorem launch_limit_enforced :
    (∀ (ft : CADLockerFooter) (w : StubWorld) (N : Nat),
      1 ≤ N → N < 2 ^ 32 → ft.max_launches = N →
      ledger_lookup w.ledger ft.file_id = some N →
      StubEvent.rejectLimit ∈ (stubRun ft w).1 ∧
      StubEvent.spawn ∉ (stubRun ft w).1 ∧
      StubEvent.increment ∉ (stubRun ft w).1)
  ∧ (∀ (ft : CADLockerFooter) (w : StubWorld), ft.max_launches = 0 →
      StubEvent.rejectLimit ∉ (stubRun ft w).1) := by
  constructor
  · intro ft w N h1 h32 hml hl
    have hcond : 0 < ft.max_launches ∧
        toInt32 ft.max_launches ≤ get_launch_count w.ledger ft.file_id := by
      rw [hml]
      refine ⟨h1, ?_⟩
      simp [get_launch_count, hl]
    simp only [stubRun]
    rw [if_pos hcond]
    simp
  · intro ft w h0
    simp only [stubRun, h0]
    rw [if_neg (by simp)]
    by_cases he : w.extract_ok <;> by_cases hs : w.spawn_ok <;>
      simp [he, hs]

/-- Witness for C2: with `max_launches = 1` and one recorded launch, the
run is rejected with no spawn; with `max_launches = 0` it is not. -/
theorem launch_limit_enforced_witness :
    (StubEvent.rejectLimit ∈ (stubRun
        { payload_size := 0, max_launches := 1,
          file_id := List.replicate 16 0, security_flags := 0,
          magic := MAGIC_MARKER }
        { ledger := [(List.replicate 16 0, 1)], extract_ok := true,
          spawn_ok := true }).1 ∧
      StubEvent.spawn ∉ (stubRun
        { payload_size := 0, max_launches := 1,
          file_id := List.replicate 16 0, security_flags := 0,
          magic := MAGIC_MARKER }
        { ledger := [(List.replicate 16 0, 1)], extract_ok := true,
          spawn_ok := true }).1 ∧
      StubEvent.increment ∉ (stubRun
        { payload_size := 0, max_launches := 1,
          file_id := List.replicate 16 0, security_flags := 0,
          magic := MAGIC_MARKER }
        { ledger := [(List.replicate 16 0, 1)], extract_ok := true,
          spawn_ok := true }).1) ∧
    StubEvent.rejectLimit ∉ (stubRun
        { payload_size := 0, max_launches := 0,
          file_id := List.replicate 16 0, security_flags := 0,
          magic := MAGIC_MARKER }
        { ledger := [(List.replicate 16 0, 1)], extract_ok := true,
          spawn_ok := true }).1 :=
  ⟨launch_limit_enforced.1
      { payload_size := 0, max_launches := 1,
        file_id := List.replicate 16 0, security_flags := 0,
        magic := MAGIC_MARKER }
      { ledger := [(List.replicate 16 0, 1)], extract_ok := true,
        spawn_ok := true }
      1 (by decide) (by decide) rfl (by decide),
   launch_limit_enforced.2
      { payload_size := 0, max_launches := 0,
        file_id := List.replicate 16 0, security_flags := 0,
        magic := MAGIC_MARKER }
      { ledger := [(List.replicate 16 0, 1)], extract_ok := true,
        spawn_ok := true }
      rfl⟩

/-- **C6.** In every launch that passes the limit check, the ledger
increment happens (and the stored count is bumped) before the viewer is
spawned: the increment event occurs in the trace, the resulting ledger
records one more launch, and every spawn event is preceded by the
increment — including the runs where extraction or the spawn itself
fails. -/
theorem increment_before_spawn (ft : CADLockerFooter) (w : StubWorld)
    (hpass : ¬ (0 < ft.max_launches ∧
      toInt32 ft.max_launches ≤ get_launch_count w.ledger ft.file_id)) :
    StubEvent.increment ∈ (stubRun ft w).1 ∧
    ledger_lookup (stubRun ft w).2 ft.file_id
      = some (((ledger_lookup w.ledger ft.file_id).getD 0 + 1) % 2 ^ 32) ∧
    ∀ i : Nat, ((stubRun ft w).1)[i]? = some StubEvent.spawn →
      ∃ j : Nat, j < i ∧ ((stubRun ft w).1)[j]? = some StubEvent.increment := by
  simp only [stubRun]
  rw [if_neg hpass]
  refine ⟨by simp, ?_, ?_⟩
  · simp only [increment_launch_count]
    exact ledger_lookup_set w.ledger ft.file_id _
  · intro i hi
    have h0 : (([StubEvent.checkLimit, StubEvent.increment] ++
        (if 0 < ft.max_launches then [StubEvent.showRemaining] else []) ++
        (if w.extract_ok then
           [StubEvent.extract] ++
             (if w.spawn_ok then [StubEvent.spawn] else []) ++
             [StubEvent.cleanupTemp]
         else [StubEvent.extract])))[0]? = some StubEvent.checkLimit := by
      simp
    have h1 : (([StubEvent.checkLimit, StubEvent.increment] ++
        (if 0 < ft.max_launches then [StubEvent.showRemaining] else []) ++
        (if w.extract_ok then
           [StubEvent.extract] ++
             (if w.spawn_ok then [StubEvent.spawn] else []) ++
             [StubEvent.cleanupTemp]
         else [StubEvent.extract])))[1]? = some StubEvent.increment := by
      simp
    refine ⟨1, ?_, h1⟩
    match i with
    | 0 => rw [h0] at hi; exact absurd hi (by simp)
    | 1 => rw [h1] at hi; exact absurd hi (by simp)
    | n + 2 => omega

/-- Witness for C6: passing run on an empty ledger with successful
extraction and spawn. -/
theorem increment_before_spawn_witness :
    StubEvent.increment ∈ (stubRun
        { payload_size := 0, max_launches := 3,
          file_id := List.replicate 16 0, security_flags := 0,
          magic := MAGIC_MARKER }
        { ledger := [], extract_ok := true, spawn_ok := true }).1 ∧
    ledger_lookup (stubRun
        { payload_size := 0, max_launches := 3,
          file_id := List.replicate 16 0, security_flags := 0,
          magic := MAGIC_MARKER }
        { ledger := [], extract_ok := true, spawn_ok := true }).2
        (List.replicate 16 0)
      = some (((ledger_lookup [] (List.replicate 16 0)).getD 0 + 1) % 2 ^ 32) ∧
    ∀ i : Nat, ((stubRun
        { payload_size := 0, max_launches := 3,
          file_id := List.replicate 16 0, security_flags := 0,
          magic := MAGIC_MARKER }
        { ledger := [], extract_ok := true, spawn_ok := true }).1)[i]?
          = some StubEvent.spawn →
      ∃ j : Nat, j < i ∧ ((stubRun
        { payload_size := 0, max_launches := 3,
          file_id := List.replicate 16 0, security_flags := 0,
          magic := MAGIC_MARKER }
        { ledger := [], extract_ok := true, spawn_ok := true }).1)[j]?
          = some StubEvent.increment :=
  increment_before_spawn
    { payload_size := 0, max_launches := 3,
      file_id := List.replicate 16 0, security_flags := 0,
      magic := MAGIC_MARKER }
    { ledger := [], extract_ok := true, spawn_ok := true }
    (by decide)

/-- **C10.** Whenever an open attempt is rejected by the limit check, the
stub calls `self_delete()` (scheduling deletion of the container file)
unconditionally — here stated for footers in which `FLAG_SELF_DESTRUCT` is
*not* set (`stub.c` never consults that flag before `self_delete()`). -/
theorem self_delete_on_reject_unconditional (ft : CADLockerFooter)
    (w : StubWorld) (hflag : ft.security_flags &&& FLAG_SELF_DESTRUCT = 0)
    (hrej : StubEvent.rejectLimit ∈ (stubRun ft w).1) :
    StubEvent.selfDelete ∈ (stubRun ft w).1 := by
  by_cases hc : 0 < ft.max_launches ∧
      toInt32 ft.max_launches ≤ get_launch_count w.ledger ft.file_id
  · simp only [stubRun]
    rw [if_pos hc]
    simp
  · exfalso
    simp only [stubRun] at hrej
    rw [if_neg hc] at hrej
    by_cases he : w.extract_ok <;> by_cases hs : w.spawn_ok <;>
      by_cases hm : 0 < ft.max_launches <;> simp [he, hs, hm] at hrej

/-- Witness for C10: rejected run of a container whose flags are 0 (no
`FLAG_SELF_DESTRUCT`) still self-deletes. -/
theorem self_delete_on_reject_unconditional_witness :
    StubEvent.selfDelete ∈ (stubRun
        { payload_size := 0, max_launches := 2,
          file_id := List.replicate 16 0, security_flags := 0,
          magic := MAGIC_MARKER }
        { ledger := [(List.replicate 16 0, 5)], extract_ok := true,
          spawn_ok := true }).1 :=
  self_delete_on_reject_unconditional
    { payload_size := 0, max_launches := 2,
      file_id := List.replicate 16 0, security_flags := 0,
      magic := MAGIC_MARKER }
    { ledger := [(List.replicate 16 0, 5)], extract_ok := true,
      spawn_ok := true }
    (by decide) (by decide)

/-! ## Tamper monitor: `EnumWindowsProc` from `src/stub.c`

Each monitor tick runs `EnumWindows(EnumWindowsProc, 0)`. For every window
whose process id matches `g_target_pid` and whose title is non-empty
(`GetWindowTextW(...) > 0`), the title is searched (`wcsstr`) for the
fixed save/export/print/plot keyword list; on a match, the target process
is terminated when `g_security_flags & FLAG_MELTDOWN` is set and the
process handle is held, and a `WM_CLOSE` is posted in all cases. Window
titles are wide-character strings, modelled as lists of code units. -/

/-- `wcsstr(hay, needle) != NULL`: `needle` occurs contiguously in `hay`. -/
def is_substring (needle : List Nat) : List Nat → Bool
  | [] => needle.isEmpty
  | h :: t => needle.isPrefixOf (h :: t) || is_substring needle t

/-- The keyword list of `EnumWindowsProc` (stub.c lines 263–268):
另存, 匯出, 出圖, 列印, 导出, 打印, "Save As", "Export", "Print", "Plot"
(the duplicate 另存 of the source collapses). -/
def forbidden_keywords : List (List Nat) :=
  [[21478, 23384], [21295, 20986], [20986, 22294], [21015, 21360],
   [23548, 20986], [25171, 21360],
   [83, 97, 118, 101, 32, 65, 115], [69, 120, 112, 111, 114, 116],
   [80, 114, 105, 110, 116], [80, 108, 111, 116]]

/-- Title matches the forbidden-keyword test of `EnumWindowsProc`. -/
def title_forbidden (title : List Nat) : Bool :=
  forbidden_keywords.any (fun k => is_substring k title)

/-- The monitor's cross-thread state: `g_target_pid`, whether
`g_target_hProcess` is non-NULL, and `g_security_flags`. -/
structure MonitorState where
  target_pid : Nat
  target_hProcess : Bool
  security_flags : Nat

/-- A window as the monitor sees it: owning pid and title. -/
structure Window where
  pid : Nat
  title : List Nat

/-- What `EnumWindowsProc` did for one window. -/
structure EnumAction where
  terminated : Bool
  posted_close : Bool
deriving DecidableEq, Repr

/-- `EnumWindowsProc` from `stub.c` for a single window. The title is read
with `GetWindowTextW(hwnd, title, 256)` into a `WCHAR title[256]` buffer,
which copies at most 255 characters — the keyword search sees only that
prefix. On a pid match with a non-empty copied title containing a
forbidden keyword, terminate the target process iff `FLAG_MELTDOWN` is set
and the handle is held, and post `WM_CLOSE` in all cases. -/
def enum_windows_proc (st : MonitorState) (w : Window) : EnumAction :=
  if w.pid = st.target_pid then
    let copied := w.title.take 255
    if 0 < copied.length then
      if title_forbidden copied then
        { terminated := decide (st.security_flags &&& FLAG_MELTDOWN ≠ 0) &&
            st.target_hProcess
          posted_close := true }
      else { terminated := false, posted_close := false }
    else { terminated := false, posted_close := false }
  else { terminated := false, posted_close := false }

theorem title_forbidden_ne_nil (title : List Nat)
    (h : title_forbidden title = true) : 0 < title.length := by
  cases title with
  | nil => exact absurd h (by decide)
  | cons a t => simp

set_option maxRecDepth 8192 in
/-- **C9 (counterexample).** A window of the target process whose title
contains the keyword "Print" only beyond the 255-character limit of the
monitor's `WCHAR title[256]` buffer is neither closed nor terminated, even
with `FLAG_MELTDOWN` set: the claim's "every window ... whose title
contains a keyword" fails for titles longer than the buffer. -/
theorem monitor_long_title_escapes_counterexample :
    title_forbidden
      (List.replicate 255 32 ++ [80, 114, 105, 110, 116]) = true ∧
    enum_windows_proc
      { target_pid := 42, target_hProcess := true, security_flags := 1 }
      { pid := 42,
        title := List.replicate 255 32 ++ [80, 114, 105, 110, 116] }
      = { terminated := false, posted_close := false } := by
  constructor
  · decide
  · decide

/-- **C9 (amended).** On a monitor tick, for every window of the target
process whose title contains one of the fixed save/export/print/plot
keywords within the 255 characters the monitor's title buffer holds: a
polite close request (`WM_CLOSE`) is posted in all cases, and if
`FLAG_MELTDOWN` is set in the security flags (the process handle being
held while the monitor watches), the target process is terminated. -/
theorem monitor_meltdown_and_close (st : MonitorState) (w : Window)
    (hpid : w.pid = st.target_pid)
    (hkw : title_forbidden (w.title.take 255) = true) :
    (enum_windows_proc st w).posted_close = true ∧
    (st.security_flags &&& FLAG_MELTDOWN ≠ 0 → st.target_hProcess = true →
      (enum_windows_proc st w).terminated = true) := by
  have hne := title_forbidden_ne_nil (w.title.take 255) hkw
  constructor
  · simp only [enum_windows_proc]
    rw [if_pos hpid, if_pos hne, if_pos hkw]
  · intro hflag hhandle
    simp only [enum_windows_proc]
    rw [if_pos hpid, if_pos hne, if_pos hkw]
    simp [hflag, hhandle]

/-- Witness for C9: a window of pid 42 titled "Save As" (with meltdown
flag set and handle held) is both closed and the process terminated. -/
theorem monitor_meltdown_and_close_witness :
    (enum_windows_proc
        { target_pid := 42, target_hProcess := true, security_flags := 1 }
        { pid := 42, title := [83, 97, 118, 101, 32, 65, 115] }).posted_close
      = true ∧
    ({ target_pid := 42, target_hProcess := true,
       security_flags := 1 : MonitorState }.security_flags &&&
        FLAG_MELTDOWN ≠ 0 →
      ({ target_pid := 42, target_hProcess := true,
         security_flags := 1 : MonitorState }.target_hProcess = true) →
      (enum_windows_proc
        { target_pid := 42, target_hProcess := true, security_flags := 1 }
        { pid := 42, title := [83, 97, 118, 101, 32, 65, 115] }).terminated
      = true) :=
  monitor_meltdown_and_close
    { target_pid := 42, target_hProcess := true, security_flags := 1 }
    { pid := 42, title := [83, 97, 118, 101, 32, 65, 115] }
    (by decide) (by decide)

/-! ## Builder output-write path (`build_protected_exe` failure handling)

`builder.c` lines 209–253 (and identically `builder_gui.c` lines 353–396):
`fopen(output_path, "wb")`, then three `fwrite`s (stub, encrypted payload,
footer). Every failure jumps to `cleanup:`, which only `fclose`s the
output stream — the partially written output file is never deleted. -/

/-- Which of the builder's output-file operations succeed. -/
structure WriteEnv where
  create_ok : Bool
  stub_write_ok : Bool
  payload_write_ok : Bool
  footer_write_ok : Bool

/-- The output-file write path of `build_protected_exe`: returns the final
on-disk state of the output file (`none` = no file) and whether the build
succeeded. A failed `fwrite` transfers nothing and the `cleanup:` label
closes the stream without deleting the file. -/
def build_write_file (env : WriteEnv) (stub enc ftb : List Nat) :
    Option (List Nat) × Bool :=
  if !env.create_ok then (none, false)
  else if !env.stub_write_ok then (some [], false)
  else if !env.payload_write_ok then (some stub, false)
  else if !env.footer_write_ok then (some (stub ++ enc), false)
  else (some (stub ++ enc ++ ftb), true)

/-- **C7 (counterexample).** A build in which the payload `fwrite` fails
after the output file was created does NOT delete the partial output: the
truncated file (holding the stub bytes) remains on disk. -/
theorem partial_output_not_deleted_counterexample :
    (build_write_file
        { create_ok := true, stub_write_ok := true, payload_write_ok := false,
          footer_write_ok := true } [1] [2] [3]).2 = false ∧
    (build_write_file
        { create_ok := true, stub_write_ok := true, payload_write_ok := false,
          footer_write_ok := true } [1] [2] [3]).1 = some [1] := by
  constructor
  · decide
  · decide

/-- **C7 (amended).** For every build in which a write fails after the
output file has been created, the builder's failure path closes the file
but does not delete it: the partially written output file remains on
disk. -/
theorem partial_output_remains_on_failure (env : WriteEnv)
    (stub enc ftb : List Nat) (hcreate : env.create_ok = true)
    (hfail : (build_write_file env stub enc ftb).2 = false) :
    (build_write_file env stub enc ftb).1 ≠ none := by
  obtain ⟨c, s, p, f⟩ := env
  simp only at hcreate
  subst hcreate
  cases s <;> cases p <;> cases f <;>
    simp_all [build_write_file]

/-- Witness for C7 (amended): the footer write failing leaves the file
holding stub plus payload bytes. -/
theorem partial_output_remains_on_failure_witness :
    (build_write_file
        { create_ok := true, stub_write_ok := true, payload_write_ok := true,
          footer_write_ok := false } [1] [2] [3]).1 ≠ none :=
  partial_output_remains_on_failure
    { create_ok := true, stub_write_ok := true, payload_write_ok := true,
      footer_write_ok := false } [1] [2] [3] (by decide) (by decide)

/-! ## Reading input files: `read_file` / `read_file_binary` (C8)

`read_file` in `builder.c` (lines 41–78) and `read_file_binary` in
`builder_gui.c` (lines 71–103) both `fseek`/`ftell` the input and return
`NULL` when `size <= 0` — a zero-length input file is rejected, so a build
from an empty payload file never reaches the byte-assembly step. -/

/-- `read_file` / `read_file_binary`: `none` when the file is empty
(`size <= 0`), otherwise the file's bytes. -/
def read_file (contents : List Nat) : Option (List Nat) :=
  if contents.length = 0 then none else some contents

/-- The full build pipeline of `build_protected_exe` as invoked by the GUI:
read the stub file, read the CAD file, then assemble
`stub ++ xor_crypt(payload) ++ footer`. `none` models a failed build. -/
def build_from_files (stubContents dwgContents : List Nat)
    (max_launches flags : Nat) (file_id : List Nat) : Option (List Nat) := do
  let stub ← read_file stubContents
  let dwg ← read_file dwgContents
  some (build_protected_exe stub dwg max_launches flags file_id)

/-- **C8 (counterexample).** Building with an empty payload file fails:
`read_file` rejects `size <= 0`, so no container is produced (here with a
concrete non-empty stub). -/
theorem build_empty_payload_fails_counterexample :
    build_from_files [77] [] 5 0 (List.replicate 16 0) = none := by
  decide

/-- **C8 (amended).** For every stub file, building with an empty payload
(`payload_size = 0`) fails — `read_file`/`read_file_binary` return an
error on zero-length input — so no container is produced and the open
step is never reached. -/
theorem build_empty_payload_fails (stubContents : List Nat)
    (max_launches flags : Nat) (file_id : List Nat) :
    build_from_files stubContents [] max_launches flags file_id = none := by
  cases hs : read_file stubContents with
  | none => simp [build_from_files, hs]
  | some stub => simp [build_from_files, hs, read_file]

end CadLocker
